import Mathlib

/-!
Shallow embedding of src/PyFishPack/_dummy.c, a placeholder CPython
extension module, together with proofs of the specified properties.

The C file defines:
  * dummy_function (lines 4-6): a METH_VARARGS function returning Py_None
    directly, with no Py_INCREF;
  * DummyMethods (lines 8-11): a method table with one entry named
    "dummy" and a NULL sentinel;
  * dummymodule (lines 13-19): a PyModuleDef with name "_dummy", NULL
    doc, m_size -1, and the table above;
  * PyInit__dummy (lines 21-23): returns PyModule_Create(&dummymodule).

Machine state is modelled explicitly: the interpreter state carries the
reference count of the None singleton (an Int, as CPython refcounts are
Py_ssize_t), and the host state carries an allocation counter and an
allocation-success flag for the module-construction primitive.
-/

/-- Python values as far as this module can observe them. The
constructor pyNoneV is the Py_None singleton, the absence-of-value
sentinel; the other constructors supply arbitrary argument values. -/
inductive PyObj where
  | pyNoneV : PyObj
  | pyInt : Int → PyObj
  | pyStr : String → PyObj
  | pyBool : Bool → PyObj
  deriving DecidableEq, Repr

/-- Interpreter state visible to this module: the reference count of the
None singleton. The dummy function could only ever touch this part of
the interpreter, since the only object it handles is Py_None. -/
structure Interp where
  noneRefcount : Int
  deriving DecidableEq, Repr

/-- Type of a C method implementation under METH_VARARGS: it receives
the self object and the positional-argument tuple (as a list), may act
on the interpreter state, and returns the new state together with the
returned pointer, where some is a non-NULL return (success) and none is
a NULL return (a raised exception). -/
abbrev PyCFunc := PyObj → List PyObj → Interp → Interp × Option PyObj

/-- The function dummy_function from src/PyFishPack/_dummy.c lines 4-6:
its body is only the statement return Py_None, so it leaves the
interpreter state untouched (in particular it performs no Py_INCREF)
and returns the non-NULL pointer to Py_None. -/
def dummy_function : PyCFunc :=
  fun _self _args st => (st, some PyObj.pyNoneV)

/-- Modelled from the spec and the CPython calling convention: what a
convention-compliant return of None does (the Py_RETURN_NONE macro):
increment the reference count of Py_None, then return it as a new
reference. This definition exists only to be compared with
dummy_function, which omits the increment. -/
def py_RETURN_NONE (st : Interp) : Interp × Option PyObj :=
  ({ st with noneRefcount := st.noneRefcount + 1 }, some PyObj.pyNoneV)

/-- Modelled from the spec and the CPython calling convention: the
caller releasing a returned None result with Py_DECREF decrements the
reference count of the None singleton. -/
def py_DECREF_None (st : Interp) : Interp :=
  { st with noneRefcount := st.noneRefcount - 1 }

/-- The METH_VARARGS flag value from the CPython headers. -/
def METH_VARARGS : Int := 1

/-- One PyMethodDef record. NULL pointers in the C struct are modelled
as none. -/
structure PyMethodDef where
  ml_name : Option String
  ml_meth : Option PyCFunc
  ml_flags : Int
  ml_doc : Option String

/-- The method table DummyMethods from src/PyFishPack/_dummy.c lines
8-11: one entry binding the name "dummy" to dummy_function with flag
METH_VARARGS and doc "Dummy function", followed by the all-NULL
sentinel entry. -/
def DummyMethods : List PyMethodDef :=
  [ { ml_name := some "dummy", ml_meth := some dummy_function,
      ml_flags := METH_VARARGS, ml_doc := some "Dummy function" },
    { ml_name := none, ml_meth := none, ml_flags := 0, ml_doc := none } ]

/-- The PyModuleDef struct, reduced to the fields the source sets after
PyModuleDef_HEAD_INIT: name, doc, size, and method table. -/
structure PyModuleDef where
  m_name : String
  m_doc : Option String
  m_size : Int
  m_methods : List PyMethodDef

/-- The module definition dummymodule from src/PyFishPack/_dummy.c
lines 13-19: name "_dummy", NULL doc, m_size -1, methods DummyMethods. -/
def dummymodule : PyModuleDef :=
  { m_name := "_dummy", m_doc := none, m_size := -1,
    m_methods := DummyMethods }

/-- A created module object: an allocation identity (so distinct
creations are distinguishable), the module name, and the attribute
dictionary mapping exposed names to method implementations. -/
structure PyModule where
  objId : Nat
  name : String
  dict : List (String × Option PyCFunc)

/-- State of the host (the CPython runtime) as far as module creation
observes it: an allocation counter giving fresh object identities, and
whether the module-construction primitive can currently succeed
(allocation might fail, e.g. out of memory). -/
structure HostState where
  nextId : Nat
  canAllocate : Bool
  deriving DecidableEq, Repr

/-- Modelled from the spec: how the host turns a method table into the
module dictionary, walking the PyMethodDef array and stopping at the
first entry whose ml_name is NULL (the sentinel). -/
def moduleDict : List PyMethodDef → List (String × Option PyCFunc)
  | [] => []
  | m :: rest =>
    match m.ml_name with
    | some n => (n, m.ml_meth) :: moduleDict rest
    | none => []

/-- Modelled from the spec: the host module-construction primitive
PyModule_Create. If the host can allocate, it builds a fresh module
object (fresh identity, the declared name, the dictionary derived from
the method table) and advances the allocation counter; otherwise it
returns NULL and leaves the host state unchanged. -/
def PyModule_Create (d : PyModuleDef) (host : HostState) :
    Option PyModule × HostState :=
  if host.canAllocate then
    (some { objId := host.nextId, name := d.m_name,
            dict := moduleDict d.m_methods },
     { host with nextId := host.nextId + 1 })
  else
    (none, host)

/-- The initializer PyInit__dummy from src/PyFishPack/_dummy.c lines
21-23: its body is only the statement return PyModule_Create of the
address of dummymodule. -/
def PyInit__dummy (host : HostState) : Option PyModule × HostState :=
  PyModule_Create dummymodule host

/-- The name of the exported initializer symbol, line 21 of the source. -/
def exportedInitSymbol : String := "PyInit__dummy"

/-- Modelled from the spec: the conventional entry-point name of the
CPython native-module system for a module of a given declared name. -/
def conventionalEntryPoint (moduleName : String) : String :=
  "PyInit_" ++ moduleName

/-- Running a sequence of calls to the dummy function, each call given
by a self object and an argument list, threading the interpreter state
and collecting each returned pointer. -/
def runCalls : List (PyObj × List PyObj) → Interp → Interp × List (Option PyObj)
  | [], st => (st, [])
  | c :: rest, st =>
    let r := dummy_function c.1 c.2 st
    let rs := runCalls rest r.1
    (rs.1, r.2 :: rs.2)

theorem runCalls_fst (l : List (PyObj × List PyObj)) (st : Interp) :
    (runCalls l st).1 = st := by
  induction l generalizing st with
  | nil => rfl
  | cons c rest ih => simp [runCalls, dummy_function, ih]

theorem runCalls_snd (l : List (PyObj × List PyObj)) (st : Interp) :
    (runCalls l st).2 = l.map (fun _ => some PyObj.pyNoneV) := by
  induction l generalizing st with
  | nil => rfl
  | cons c rest ih => simp [runCalls, dummy_function, ih]

/-- C1: for every self object, every argument list (empty, singleton,
or longer, of arbitrary values) and every interpreter state, calling
dummy returns the non-NULL pointer to the None sentinel, so no error is
raised; being a total Lean function, it is total over all inputs. -/
theorem dummy_returns_none (self : PyObj) (args : List PyObj)
    (st : Interp) :
    (dummy_function self args st).2 = some PyObj.pyNoneV := rfl

/-- C3: the dummy function performs no side effect: each single call
leaves the interpreter state exactly unchanged, and hence every
sequence of dummy calls leaves all state other than the returned values
unchanged. -/
theorem dummy_calls_leave_state_unchanged (self : PyObj)
    (args : List PyObj) (st : Interp) (l : List (PyObj × List PyObj)) :
    (dummy_function self args st).1 = st ∧ (runCalls l st).1 = st :=
  ⟨rfl, runCalls_fst l st⟩

/-- C7: dummy always succeeds, deterministically: any two calls, with
any argument lists and from any states, return the same value, and
repeating a call from the state a first call left behind changes
nothing, so repeating is equivalent to calling once. -/
theorem dummy_deterministic_idempotent (selfA selfB : PyObj)
    (a b : List PyObj) (st1 st2 : Interp) :
    (dummy_function selfA a st1).2 = (dummy_function selfB b st2).2 ∧
    dummy_function selfA a (dummy_function selfA a st1).1 =
      dummy_function selfA a st1 :=
  ⟨rfl, rfl⟩

/-- C9: dummy_function returns Py_None as a borrowed reference: it
leaves the refcount of None unchanged, whereas the convention-compliant
Py_RETURN_NONE would increment it while returning the same value; so
once the caller releases the result with Py_DECREF, the net effect of a
call is to decrement the refcount of the None singleton by one. -/
theorem dummy_returns_borrowed_reference (self : PyObj)
    (args : List PyObj) (st : Interp) :
    (dummy_function self args st).1.noneRefcount = st.noneRefcount ∧
    (py_RETURN_NONE st).1.noneRefcount = st.noneRefcount + 1 ∧
    (py_RETURN_NONE st).2 = (dummy_function self args st).2 ∧
    (py_DECREF_None (dummy_function self args st).1).noneRefcount =
      st.noneRefcount - 1 :=
  ⟨rfl, rfl, rfl, rfl⟩

/-- C6: the exported initializer symbol is exactly the conventional
CPython entry-point name for the module name declared in dummymodule. -/
theorem init_symbol_matches_convention :
    exportedInitSymbol = conventionalEntryPoint dummymodule.m_name := rfl

/-- C4: module creation by PyInit__dummy is exactly one unwrapped call
of the host primitive on dummymodule, it fails if and only if the host
primitive itself fails, and on a failing host it returns NULL with the
host state untouched, so no partially built module is left behind. -/
theorem init_propagates_host_result (host : HostState) :
    PyInit__dummy host = PyModule_Create dummymodule host ∧
    ((PyInit__dummy host).1 = none ↔ host.canAllocate = false) ∧
    (∀ n : Nat,
      PyInit__dummy { nextId := n, canAllocate := false } =
        (none, { nextId := n, canAllocate := false })) := by
  refine ⟨rfl, ?_, fun n => rfl⟩
  cases h : host.canAllocate <;>
    simp [PyInit__dummy, PyModule_Create, h]

/-- C2: a successfully created module exposes exactly one name, and
that name is "dummy". -/
theorem module_exposes_exactly_dummy (host : HostState)
    (h : host.canAllocate = true) :
    ∃ m, (PyInit__dummy host).1 = some m ∧
      m.dict.map Prod.fst = ["dummy"] := by
  refine ⟨{ objId := host.nextId, name := dummymodule.m_name,
            dict := moduleDict dummymodule.m_methods }, ?_, rfl⟩
  simp [PyInit__dummy, PyModule_Create, h]

/-- Witness for C2 at the concrete host state with counter 0 and a
succeeding allocator. -/
theorem module_exposes_exactly_dummy_witness :
    (HostState.mk 0 true).canAllocate = true ∧
    ∃ m, (PyInit__dummy (HostState.mk 0 true)).1 = some m ∧
      m.dict.map Prod.fst = ["dummy"] :=
  ⟨rfl, module_exposes_exactly_dummy (HostState.mk 0 true) rfl⟩

/-- C5: when module creation succeeds, the resulting module carries
exactly one dictionary entry, mapping the name "dummy" to the
dummy_function operation. -/
theorem init_success_dict (host : HostState)
    (h : host.canAllocate = true) :
    ∃ m, (PyInit__dummy host).1 = some m ∧
      m.dict = [("dummy", some dummy_function)] := by
  refine ⟨{ objId := host.nextId, name := dummymodule.m_name,
            dict := moduleDict dummymodule.m_methods }, ?_, rfl⟩
  simp [PyInit__dummy, PyModule_Create, h]

/-- Witness for C5 at the concrete host state with counter 0 and a
succeeding allocator. -/
theorem init_success_dict_witness :
    (HostState.mk 0 true).canAllocate = true ∧
    ∃ m, (PyInit__dummy (HostState.mk 0 true)).1 = some m ∧
      m.dict = [("dummy", some dummy_function)] :=
  ⟨rfl, init_success_dict (HostState.mk 0 true) rfl⟩

/-- C8: dummy is safe under concurrent invocation without coordination:
any two interleavings of the same multiset of calls (any permutation)
end in the same interpreter state, namely the initial one, and every
call in the schedule returns the None sentinel. -/
theorem dummy_concurrent_interleavings_agree
    (l1 l2 : List (PyObj × List PyObj)) (st : Interp)
    (h : l1.Perm l2) :
    (runCalls l1 st).1 = (runCalls l2 st).1 ∧
    ∀ r ∈ (runCalls l1 st).2, r = some PyObj.pyNoneV := by
  refine ⟨(runCalls_fst l1 st).trans (runCalls_fst l2 st).symm, ?_⟩
  intro r hr
  rw [runCalls_snd] at hr
  obtain ⟨a, -, ha⟩ := List.mem_map.mp hr
  exact ha.symm

/-- Witness for C8: two concrete two-call schedules that are
permutations of each other, from the state with None refcount 7. -/
theorem dummy_concurrent_interleavings_agree_witness :
    ([(PyObj.pyInt 1, []), (PyObj.pyStr "x", [PyObj.pyBool true])].Perm
      [(PyObj.pyStr "x", [PyObj.pyBool true]), (PyObj.pyInt 1, [])]) ∧
    ((runCalls [(PyObj.pyInt 1, []), (PyObj.pyStr "x", [PyObj.pyBool true])]
        (Interp.mk 7)).1 =
      (runCalls [(PyObj.pyStr "x", [PyObj.pyBool true]), (PyObj.pyInt 1, [])]
        (Interp.mk 7)).1 ∧
    ∀ r ∈ (runCalls [(PyObj.pyInt 1, []), (PyObj.pyStr "x", [PyObj.pyBool true])]
        (Interp.mk 7)).2, r = some PyObj.pyNoneV) :=
  ⟨by decide,
   dummy_concurrent_interleavings_agree _ _ (Interp.mk 7) (by decide)⟩

/-- C10: the module definition declares m_size -1 (no per-interpreter
state, no support for safe repeated per-interpreter creation), and each
invocation of the initializer on a succeeding host constructs a fresh
module object: two successive invocations yield modules with distinct
identities, so identity stability of a double import rests on the host
loader cache alone. -/
theorem module_stateless_fresh_per_init (host : HostState)
    (h : host.canAllocate = true) :
    dummymodule.m_size = -1 ∧
    ∃ m1 m2,
      (PyInit__dummy host).1 = some m1 ∧
      (PyInit__dummy (PyInit__dummy host).2).1 = some m2 ∧
      m1.objId ≠ m2.objId := by
  refine ⟨rfl, ?_⟩
  cases host with
  | mk n can =>
    subst h
    refine ⟨_, _, rfl, rfl, ?_⟩
    simp [PyInit__dummy, PyModule_Create]

/-- Witness for C10 at the concrete host state with counter 0 and a
succeeding allocator. -/
theorem module_stateless_fresh_per_init_witness :
    (HostState.mk 0 true).canAllocate = true ∧
    (dummymodule.m_size = -1 ∧
    ∃ m1 m2,
      (PyInit__dummy (HostState.mk 0 true)).1 = some m1 ∧
      (PyInit__dummy (PyInit__dummy (HostState.mk 0 true)).2).1 = some m2 ∧
      m1.objId ≠ m2.objId) :=
  ⟨rfl, module_stateless_fresh_per_init (HostState.mk 0 true) rfl⟩
